import Mathlib

/-!
Shallow embedding of `src/cba_tools.py` (Green Book cost-benefit analysis
tools).  Python floats are modelled as rationals `ℚ`, Python ints as `ℤ`,
and functions that raise `ValueError` return `Except String`.
-/

set_option maxHeartbeats 1000000

namespace CbaTools

/-- The standard-category band rates of `GREEN_BOOK_RATES['standard']`. -/
structure StandardRates where
  years_0_30 : ℚ
  years_31_75 : ℚ
  years_76_125 : ℚ
  years_126_200 : ℚ
  years_201_300 : ℚ
  years_301_plus : ℚ

/-- The shape of the `GREEN_BOOK_RATES` table. -/
structure GreenBookRates where
  standard : StandardRates
  health : ℚ
  reduced : ℚ

/-- The `GREEN_BOOK_RATES` constant of `cba_tools.py`. -/
def GREEN_BOOK_RATES : GreenBookRates :=
  { standard :=
      { years_0_30 := 0.035
        years_31_75 := 0.030
        years_76_125 := 0.025
        years_126_200 := 0.020
        years_201_300 := 0.015
        years_301_plus := 0.010 }
    health := 0.015
    reduced := 0.030 }

/-- `get_discount_rate(year, rate_type)` from `cba_tools.py`: the if/elif
chain over the category string and then over the year bands. -/
def get_discount_rate (year : ℤ) (rate_type : String) : ℚ :=
  if rate_type = "health" then GREEN_BOOK_RATES.health
  else if rate_type = "reduced" then GREEN_BOOK_RATES.reduced
  else
    if year ≤ 30 then GREEN_BOOK_RATES.standard.years_0_30
    else if year ≤ 75 then GREEN_BOOK_RATES.standard.years_31_75
    else if year ≤ 125 then GREEN_BOOK_RATES.standard.years_76_125
    else if year ≤ 200 then GREEN_BOOK_RATES.standard.years_126_200
    else if year ≤ 300 then GREEN_BOOK_RATES.standard.years_201_300
    else GREEN_BOOK_RATES.standard.years_301_plus

/-- The loop body of `calculate_discount_factor`: starting from `1.0`,
for each `y` from `1` to `n`, divide the running factor by
`(1 + get_discount_rate(y, rate_type))`.  `factorLoop rt n` is the value of
`discount_factor` after the iteration with `y = n` (the Python loop
`for y in range(1, year + 1)` with the last iteration peeled off). -/
def factorLoop (rate_type : String) : ℕ → ℚ
  | 0 => 1
  | n + 1 => factorLoop rate_type n / (1 + get_discount_rate ((n : ℤ) + 1) rate_type)

/-- `calculate_discount_factor(year, rate_type)` from `cba_tools.py`.
Python `range(1, year + 1)` is empty when `year ≤ 0`, which `Int.toNat`
reproduces. -/
def calculate_discount_factor (year : ℤ) (rate_type : String) : ℚ :=
  if year = 0 then 1
  else factorLoop rate_type year.toNat

/-- `calculate_npv_greenbook(cash_flows, years, rate_type)` from
`cba_tools.py`.  `years = None` is modelled as `Option.none`; the Python
`for cf, year in zip(...)` accumulation is a left fold over the zipped
lists starting from `0.0`. -/
def calculate_npv_greenbook (cash_flows : List ℚ) (years : Option (List ℤ))
    (rate_type : String) : Except String ℚ :=
  let ys : List ℤ :=
    match years with
    | none => (List.range cash_flows.length).map Int.ofNat
    | some l => l
  if cash_flows.length ≠ ys.length then
    Except.error "cash_flows and years must have same length"
  else
    Except.ok ((cash_flows.zip ys).foldl
      (fun npv p => npv + p.1 * calculate_discount_factor p.2 rate_type) 0)

/-- `calculate_bcr(costs, benefits, years, rate_type)` from `cba_tools.py`.
The two `sum(... for ... in zip(...))` comprehensions become sums over the
zipped lists; note the source performs no length validation, so `zip`
truncates to the shorter list exactly as in Python. -/
def calculate_bcr (costs benefits : List ℚ) (years : Option (List ℤ))
    (rate_type : String) : Except String ℚ :=
  let ys : List ℤ :=
    match years with
    | none => (List.range costs.length).map Int.ofNat
    | some l => l
  let pv_costs :=
    ((costs.zip ys).map (fun p => p.1 * calculate_discount_factor p.2 rate_type)).sum
  let pv_benefits :=
    ((benefits.zip ys).map (fun p => p.1 * calculate_discount_factor p.2 rate_type)).sum
  if pv_costs = 0 then
    Except.error "Total discounted costs cannot be zero"
  else
    Except.ok (pv_benefits / pv_costs)

/-- The `bias_factors` dict local to `apply_optimism_bias`, as an
association list preserving the source's insertion order. -/
def bias_factors : List (String × ℚ) :=
  [("standard_building", 0.24),
   ("non_standard_building", 0.51),
   ("standard_civil_engineering", 0.44),
   ("non_standard_civil_engineering", 0.66),
   ("equipment_development", 0.54),
   ("outsourcing", 0.41)]

/-- `apply_optimism_bias(cost_estimate, project_type)` from `cba_tools.py`:
membership test and lookup in `bias_factors` become a single association-list
lookup; the error message names the valid tags as the Python message does. -/
def apply_optimism_bias (cost_estimate : ℚ) (project_type : String) :
    Except String ℚ :=
  match bias_factors.lookup project_type with
  | none => Except.error ("Unknown project type. Choose from: " ++
      String.intercalate ", " (bias_factors.map Prod.fst))
  | some uplift => Except.ok (cost_estimate * (1 + uplift))

/-! ### Helper lemmas -/

/-- For any year (including `year = 0` and negative years) the discount
factor is the loop value at `year.toNat`, since `factorLoop rt 0 = 1`. -/
lemma calculate_discount_factor_eq_factorLoop (year : ℤ) (rt : String) :
    calculate_discount_factor year rt = factorLoop rt year.toNat := by
  by_cases h : year = 0
  · subst h
    simp [calculate_discount_factor, factorLoop]
  · rw [calculate_discount_factor, if_neg h]

/-- On category `"standard"` the rate lookup is the pure year-band chain. -/
lemma get_discount_rate_standard (y : ℤ) :
    get_discount_rate y "standard" =
      if y ≤ 30 then 0.035 else if y ≤ 75 then 0.030 else if y ≤ 125 then 0.025
      else if y ≤ 200 then 0.020 else if y ≤ 300 then 0.015 else 0.010 := by
  simp [get_discount_rate, GREEN_BOOK_RATES]

/-- Every entry of the rate table is strictly positive, for any category
string and any year. -/
lemma get_discount_rate_pos (y : ℤ) (rt : String) : 0 < get_discount_rate y rt := by
  rw [get_discount_rate]
  split_ifs <;> norm_num [GREEN_BOOK_RATES]

/-- The loop value is always strictly positive. -/
lemma factorLoop_pos (rt : String) (n : ℕ) : 0 < factorLoop rt n := by
  induction n with
  | zero => norm_num [factorLoop]
  | succ n ih =>
      rw [factorLoop]
      exact div_pos ih (by linarith [get_discount_rate_pos ((n : ℤ) + 1) rt])

/-- Each loop step does not increase the factor. -/
lemma factorLoop_succ_le (rt : String) (n : ℕ) :
    factorLoop rt (n + 1) ≤ factorLoop rt n := by
  rw [factorLoop]
  exact div_le_self (factorLoop_pos rt n).le
    (by linarith [get_discount_rate_pos ((n : ℤ) + 1) rt])

/-- The loop value is non-increasing in the year count. -/
lemma factorLoop_antitone (rt : String) {m n : ℕ} (h : m ≤ n) :
    factorLoop rt n ≤ factorLoop rt m := by
  induction n with
  | zero => simp_all
  | succ n ih =>
      rcases Nat.lt_or_ge m (n + 1) with hlt | hge
      · exact (factorLoop_succ_le rt n).trans (ih (Nat.lt_succ_iff.mp hlt))
      · have : m = n + 1 := le_antisymm h hge
        subst this
        exact le_refl _

/-- The loop value never exceeds `1`. -/
lemma factorLoop_le_one (rt : String) (n : ℕ) : factorLoop rt n ≤ 1 := by
  have := factorLoop_antitone rt (Nat.zero_le n)
  simpa [factorLoop] using this

/-- The loop value is the product of the per-year reciprocals
`1 / (1 + rate(y))` for `y` from `1` to `n`. -/
lemma factorLoop_eq_prod (rt : String) (n : ℕ) :
    factorLoop rt n = ∏ y ∈ Finset.Icc 1 n, 1 / (1 + get_discount_rate (y : ℤ) rt) := by
  induction n with
  | zero => simp [factorLoop]
  | succ n ih =>
      rw [factorLoop, ih, Finset.prod_Icc_succ_top (by omega : 1 ≤ n + 1),
        div_eq_mul_one_div]
      push_cast
      ring

/-! ### Claim theorems -/

/-- Claim C1: for every rate category, `calculate_discount_factor 0` is
exactly `1`, and for every year `> 0` the factor equals the product over
`y` from `1` to `year` of `1 / (1 + get_discount_rate y category)` — the
loop starts from `1.0` and divides by `(1 + rate)` at each step. -/
theorem claim_C1 (rt : String) (year : ℤ) (h : 0 < year) :
    calculate_discount_factor 0 rt = 1 ∧
    calculate_discount_factor year rt =
      ∏ y ∈ Finset.Icc 1 year.toNat, 1 / (1 + get_discount_rate (y : ℤ) rt) := by
  refine ⟨by rw [calculate_discount_factor, if_pos rfl], ?_⟩
  rw [calculate_discount_factor_eq_factorLoop, factorLoop_eq_prod]

/-- Witness for C1 at category `"standard"`, year `2`. -/
theorem claim_C1_witness :
    (0 : ℤ) < 2 ∧
    (calculate_discount_factor 0 "standard" = 1 ∧
      calculate_discount_factor 2 "standard" =
        ∏ y ∈ Finset.Icc 1 (2 : ℤ).toNat,
          1 / (1 + get_discount_rate (y : ℤ) "standard")) :=
  ⟨by decide, claim_C1 "standard" 2 (by decide)⟩

/-- Claim C2: `get_discount_rate` returns `0.015` for `"health"` and
`0.030` for `"reduced"` for every year `≥ 0`, ignoring the year; for
`"standard"` it returns the band rate with inclusive upper bounds
`{30, 75, 125, 200, 300}` and a catch-all for year `> 300`; in particular
`rate 30 = 0.035`, `rate 31 = 0.030`, `rate 125 = 0.025`,
`rate 126 = 0.020`, `rate 300 = 0.015`, `rate 301 = 0.010`. -/
theorem claim_C2 (year : ℤ) (h : 0 ≤ year) :
    get_discount_rate year "health" = 0.015 ∧
    get_discount_rate year "reduced" = 0.030 ∧
    (year ≤ 30 → get_discount_rate year "standard" = 0.035) ∧
    (31 ≤ year → year ≤ 75 → get_discount_rate year "standard" = 0.030) ∧
    (76 ≤ year → year ≤ 125 → get_discount_rate year "standard" = 0.025) ∧
    (126 ≤ year → year ≤ 200 → get_discount_rate year "standard" = 0.020) ∧
    (201 ≤ year → year ≤ 300 → get_discount_rate year "standard" = 0.015) ∧
    (301 ≤ year → get_discount_rate year "standard" = 0.010) ∧
    get_discount_rate 30 "standard" = 0.035 ∧
    get_discount_rate 31 "standard" = 0.030 ∧
    get_discount_rate 125 "standard" = 0.025 ∧
    get_discount_rate 126 "standard" = 0.020 ∧
    get_discount_rate 300 "standard" = 0.015 ∧
    get_discount_rate 301 "standard" = 0.010 := by
  refine ⟨by simp [get_discount_rate, GREEN_BOOK_RATES],
    by simp [get_discount_rate, GREEN_BOOK_RATES], ?_, ?_, ?_, ?_, ?_, ?_,
    ?_, ?_, ?_, ?_, ?_, ?_⟩ <;>
  · intros
    rw [get_discount_rate_standard]
    split_ifs <;> first | rfl | omega

/-- Witness for C2 at year `50`. -/
theorem claim_C2_witness :
    (0 : ℤ) ≤ 50 ∧
    (get_discount_rate 50 "health" = 0.015 ∧
      get_discount_rate 50 "reduced" = 0.030 ∧
      ((50 : ℤ) ≤ 30 → get_discount_rate 50 "standard" = 0.035) ∧
      ((31 : ℤ) ≤ 50 → (50 : ℤ) ≤ 75 → get_discount_rate 50 "standard" = 0.030) ∧
      ((76 : ℤ) ≤ 50 → (50 : ℤ) ≤ 125 → get_discount_rate 50 "standard" = 0.025) ∧
      ((126 : ℤ) ≤ 50 → (50 : ℤ) ≤ 200 → get_discount_rate 50 "standard" = 0.020) ∧
      ((201 : ℤ) ≤ 50 → (50 : ℤ) ≤ 300 → get_discount_rate 50 "standard" = 0.015) ∧
      ((301 : ℤ) ≤ 50 → get_discount_rate 50 "standard" = 0.010) ∧
      get_discount_rate 30 "standard" = 0.035 ∧
      get_discount_rate 31 "standard" = 0.030 ∧
      get_discount_rate 125 "standard" = 0.025 ∧
      get_discount_rate 126 "standard" = 0.020 ∧
      get_discount_rate 300 "standard" = 0.015 ∧
      get_discount_rate 301 "standard" = 0.010) :=
  ⟨by decide, claim_C2 50 (by decide)⟩

/-- Claim C7: for every year `≥ 0` and every category string that is
neither `"health"` nor `"reduced"` (including unrecognized strings),
`get_discount_rate` behaves exactly as for `"standard"`: unrecognized
categories fall through rather than raising an error. -/
theorem claim_C7 (year : ℤ) (rt : String) (h0 : 0 ≤ year)
    (h1 : rt ≠ "health") (h2 : rt ≠ "reduced") :
    get_discount_rate year rt = get_discount_rate year "standard" := by
  rw [get_discount_rate, get_discount_rate, if_neg h1, if_neg h2,
    if_neg (show ¬("standard" : String) = "health" by simp),
    if_neg (show ¬("standard" : String) = "reduced" by simp)]

/-- Witness for C7 at year `7`, category `"nonsense"`. -/
theorem claim_C7_witness :
    (0 : ℤ) ≤ 7 ∧ ("nonsense" : String) ≠ "health" ∧
    ("nonsense" : String) ≠ "reduced" ∧
    get_discount_rate 7 "nonsense" = get_discount_rate 7 "standard" :=
  ⟨by decide, by decide, by decide,
    claim_C7 7 "nonsense" (by decide) (by decide) (by decide)⟩

/-- Claim C10: for every negative year and every category,
`calculate_discount_factor` returns exactly `1`, because the loop over
`range(1, year + 1)` is empty — negative years behave like year `0`. -/
theorem claim_C10 (year : ℤ) (rt : String) (h : year < 0) :
    calculate_discount_factor year rt = 1 := by
  rw [calculate_discount_factor_eq_factorLoop, Int.toNat_of_nonpos h.le,
    factorLoop]

/-- Witness for C10 at year `-3`, category `"standard"`. -/
theorem claim_C10_witness :
    (-3 : ℤ) < 0 ∧ calculate_discount_factor (-3) "standard" = 1 :=
  ⟨by decide, claim_C10 (-3) "standard" (by decide)⟩

/-- Claim C8: for every fixed category, `calculate_discount_factor` is
monotonically non-increasing in the year over years `≥ 0`, and its value
lies in the half-open interval `(0, 1]`. -/
theorem claim_C8 (rt : String) (y1 y2 : ℤ) (h0 : 0 ≤ y1) (h12 : y1 ≤ y2) :
    calculate_discount_factor y2 rt ≤ calculate_discount_factor y1 rt ∧
    0 < calculate_discount_factor y2 rt ∧
    calculate_discount_factor y2 rt ≤ 1 := by
  rw [calculate_discount_factor_eq_factorLoop, calculate_discount_factor_eq_factorLoop]
  exact ⟨factorLoop_antitone rt (Int.toNat_le_toNat h12),
    factorLoop_pos rt _, factorLoop_le_one rt _⟩

/-- Witness for C8 at category `"standard"`, years `1 ≤ 2`. -/
theorem claim_C8_witness :
    (0 : ℤ) ≤ 1 ∧ (1 : ℤ) ≤ 2 ∧
    (calculate_discount_factor 2 "standard" ≤ calculate_discount_factor 1 "standard" ∧
      0 < calculate_discount_factor 2 "standard" ∧
      calculate_discount_factor 2 "standard" ≤ 1) :=
  ⟨by decide, by decide, claim_C8 "standard" 1 2 (by decide) (by decide)⟩

/-- Accumulating `acc + f p` over a list by a left fold is the starting
value plus the sum of the mapped list (the Python `npv += cf * df` loop). -/
lemma foldl_add_eq (f : ℚ × ℤ → ℚ) (l : List (ℚ × ℤ)) (a : ℚ) :
    l.foldl (fun acc p => acc + f p) a = a + (l.map f).sum := by
  induction l generalizing a with
  | nil => simp
  | cons x xs ih => simp [ih, add_assoc]

/-- The sum over a zipped pair of equal-length lists of `c * g y` is the
positional sum `∑ i, cfs[i] * g (ys[i])`. -/
lemma zip_map_sum_eq (g : ℤ → ℚ) :
    ∀ (cfs : List ℚ) (ys : List ℤ), cfs.length = ys.length →
      ((cfs.zip ys).map (fun p => p.1 * g p.2)).sum =
        ∑ i ∈ Finset.range cfs.length, cfs.getD i 0 * g (ys.getD i 0) := by
  intro cfs
  induction cfs with
  | nil => intro ys h; simp
  | cons c cfs ih =>
      intro ys h
      cases ys with
      | nil => simp at h
      | cons y ys =>
          simp only [List.length_cons, Nat.succ.injEq] at h
          rw [List.zip_cons_cons, List.map_cons, List.sum_cons, List.length_cons,
            Finset.sum_range_succ']
          simp only [List.getD_cons_succ, List.getD_cons_zero]
          rw [ih ys h, add_comm]

/-- Indexing the default years list `[0, 1, 2, ...]` at `i < n` yields `i`. -/
lemma range_map_getD (n i : ℕ) (hi : i < n) :
    ((List.range n).map Int.ofNat).getD i 0 = (i : ℤ) := by
  rw [List.getD_eq_getElem?_getD, List.getElem?_map, List.getElem?_range hi]
  rfl

/-- Claim C3: `calculate_npv_greenbook` returns the sum over all `i` of
`cash_flows[i] * calculate_discount_factor (years[i])`; when `years` is
omitted it defaults to `0, 1, 2, ...` aligned by position. -/
theorem claim_C3 (cfs : List ℚ) (ys : List ℤ) (rt : String)
    (h : cfs.length = ys.length) :
    calculate_npv_greenbook cfs (some ys) rt =
      Except.ok (∑ i ∈ Finset.range cfs.length,
        cfs.getD i 0 * calculate_discount_factor (ys.getD i 0) rt) ∧
    calculate_npv_greenbook cfs none rt =
      Except.ok (∑ i ∈ Finset.range cfs.length,
        cfs.getD i 0 * calculate_discount_factor (i : ℤ) rt) := by
  constructor
  · rw [calculate_npv_greenbook]
    simp only [if_neg (not_not.mpr h)]
    rw [foldl_add_eq (fun p => p.1 * calculate_discount_factor p.2 rt), zero_add,
      zip_map_sum_eq (fun y => calculate_discount_factor y rt) cfs ys h]
  · rw [calculate_npv_greenbook]
    have hlen : cfs.length = ((List.range cfs.length).map Int.ofNat).length := by
      simp
    simp only [if_neg (not_not.mpr hlen)]
    rw [foldl_add_eq (fun p => p.1 * calculate_discount_factor p.2 rt), zero_add,
      zip_map_sum_eq (fun y => calculate_discount_factor y rt) cfs _ hlen]
    congr 1
    refine Finset.sum_congr rfl fun i hi => ?_
    rw [range_map_getD cfs.length i (Finset.mem_range.mp hi)]

/-- Witness for C3 at `cash_flows = [100, 200]`, `years = [0, 3]`. -/
theorem claim_C3_witness :
    ([(100 : ℚ), 200].length = [(0 : ℤ), 3].length) ∧
    (calculate_npv_greenbook [100, 200] (some [0, 3]) "standard" =
      Except.ok (∑ i ∈ Finset.range [(100 : ℚ), 200].length,
        [(100 : ℚ), 200].getD i 0 *
          calculate_discount_factor ([(0 : ℤ), 3].getD i 0) "standard") ∧
    calculate_npv_greenbook [100, 200] none "standard" =
      Except.ok (∑ i ∈ Finset.range [(100 : ℚ), 200].length,
        [(100 : ℚ), 200].getD i 0 * calculate_discount_factor (i : ℤ) "standard")) :=
  ⟨by decide, claim_C3 [100, 200] [0, 3] "standard" (by decide)⟩

/-- The discount factor is strictly positive for every year (negative
years included) and every category. -/
lemma calculate_discount_factor_pos (year : ℤ) (rt : String) :
    0 < calculate_discount_factor year rt := by
  rw [calculate_discount_factor_eq_factorLoop]
  exact factorLoop_pos rt _

/-- Unfolding of `calculate_bcr`: its result is the zero-test on the
discounted cost total followed by the ratio, with the default years list
substituted when `years` is absent. -/
lemma calculate_bcr_def_eq (costs benefits : List ℚ) (years : Option (List ℤ))
    (rt : String) :
    calculate_bcr costs benefits years rt =
      if ((costs.zip (years.getD ((List.range costs.length).map Int.ofNat))).map
            (fun p => p.1 * calculate_discount_factor p.2 rt)).sum = 0
      then Except.error "Total discounted costs cannot be zero"
      else Except.ok
        (((benefits.zip (years.getD ((List.range costs.length).map Int.ofNat))).map
            (fun p => p.1 * calculate_discount_factor p.2 rt)).sum /
          ((costs.zip (years.getD ((List.range costs.length).map Int.ofNat))).map
            (fun p => p.1 * calculate_discount_factor p.2 rt)).sum) := by
  cases years <;> rfl

/-- A discounted total over an all-zero value list is zero. -/
lemma zip_sum_zero (f : ℤ → ℚ) (l : List ℚ) (ys : List ℤ)
    (h : ∀ c ∈ l, c = 0) :
    ((l.zip ys).map (fun p => p.1 * f p.2)).sum = 0 := by
  apply List.sum_eq_zero
  intro x hx
  rcases List.mem_map.mp hx with ⟨p, hp, rfl⟩
  rw [h p.1 (List.of_mem_zip hp).1, zero_mul]

/-- A discounted total over a non-negative value list is non-negative. -/
lemma zip_sum_nonneg (l : List ℚ) (ys : List ℤ) (rt : String)
    (h : ∀ x ∈ l, 0 ≤ x) :
    0 ≤ ((l.zip ys).map (fun p => p.1 * calculate_discount_factor p.2 rt)).sum := by
  apply List.sum_nonneg
  intro x hx
  rcases List.mem_map.mp hx with ⟨p, hp, rfl⟩
  exact mul_nonneg (h p.1 (List.of_mem_zip hp).1)
    (calculate_discount_factor_pos p.2 rt).le

/-- Claim C4: `calculate_bcr` fails with the zero-denominator error exactly
when the discounted cost total is zero — in particular whenever all costs
are zero — and otherwise returns `pv_benefits / pv_costs` with no clamping
or rounding. -/
theorem claim_C4 (costs benefits : List ℚ) (years : Option (List ℤ))
    (rt : String) :
    calculate_bcr costs benefits years rt =
      (if ((costs.zip (years.getD ((List.range costs.length).map Int.ofNat))).map
            (fun p => p.1 * calculate_discount_factor p.2 rt)).sum = 0
       then Except.error "Total discounted costs cannot be zero"
       else Except.ok
        (((benefits.zip (years.getD ((List.range costs.length).map Int.ofNat))).map
            (fun p => p.1 * calculate_discount_factor p.2 rt)).sum /
          ((costs.zip (years.getD ((List.range costs.length).map Int.ofNat))).map
            (fun p => p.1 * calculate_discount_factor p.2 rt)).sum)) ∧
    ((∀ c ∈ costs, c = 0) →
      ((costs.zip (years.getD ((List.range costs.length).map Int.ofNat))).map
          (fun p => p.1 * calculate_discount_factor p.2 rt)).sum = 0) :=
  ⟨calculate_bcr_def_eq costs benefits years rt,
    fun h => zip_sum_zero (fun y => calculate_discount_factor y rt) costs
      (years.getD ((List.range costs.length).map Int.ofNat)) h⟩

/-- Witness for C4: all-zero costs produce the zero-denominator error. -/
theorem claim_C4_witness :
    (∀ c ∈ [(0 : ℚ), 0], c = 0) ∧
    calculate_bcr [0, 0] [5] none "standard" =
      Except.error "Total discounted costs cannot be zero" := by
  refine ⟨by decide, ?_⟩
  rw [(claim_C4 [0, 0] [5] none "standard").1,
    if_pos ((claim_C4 [0, 0] [5] none "standard").2 (by decide))]

/-- Claim C5: `apply_optimism_bias` returns `cost_estimate * (1 + uplift)`
with the fixed uplift for each of the six known project-type tags, and
fails with an unrecognized-category error naming the valid set exactly when
the tag is not one of the six. -/
theorem claim_C5 (c : ℚ) (pt : String)
    (h1 : pt ≠ "standard_building") (h2 : pt ≠ "non_standard_building")
    (h3 : pt ≠ "standard_civil_engineering")
    (h4 : pt ≠ "non_standard_civil_engineering")
    (h5 : pt ≠ "equipment_development") (h6 : pt ≠ "outsourcing") :
    apply_optimism_bias c "standard_building" = Except.ok (c * (1 + 0.24)) ∧
    apply_optimism_bias c "non_standard_building" = Except.ok (c * (1 + 0.51)) ∧
    apply_optimism_bias c "standard_civil_engineering" = Except.ok (c * (1 + 0.44)) ∧
    apply_optimism_bias c "non_standard_civil_engineering" = Except.ok (c * (1 + 0.66)) ∧
    apply_optimism_bias c "equipment_development" = Except.ok (c * (1 + 0.54)) ∧
    apply_optimism_bias c "outsourcing" = Except.ok (c * (1 + 0.41)) ∧
    apply_optimism_bias c pt =
      Except.error ("Unknown project type. Choose from: standard_building, non_standard_building, standard_civil_engineering, non_standard_civil_engineering, equipment_development, outsourcing") := by
  refine ⟨by simp [apply_optimism_bias, bias_factors, List.lookup],
    by simp [apply_optimism_bias, bias_factors, List.lookup],
    by simp [apply_optimism_bias, bias_factors, List.lookup],
    by simp [apply_optimism_bias, bias_factors, List.lookup],
    by simp [apply_optimism_bias, bias_factors, List.lookup],
    by simp [apply_optimism_bias, bias_factors, List.lookup], ?_⟩
  rw [apply_optimism_bias]
  have hl : bias_factors.lookup pt = none := by
    simp [bias_factors, List.lookup, beq_eq_false_iff_ne.mpr h1,
      beq_eq_false_iff_ne.mpr h2, beq_eq_false_iff_ne.mpr h3,
      beq_eq_false_iff_ne.mpr h4, beq_eq_false_iff_ne.mpr h5,
      beq_eq_false_iff_ne.mpr h6]
  rw [hl]
  rfl

/-- Witness for C5 at estimate `10000000`, unknown tag `"roads"`. -/
theorem claim_C5_witness :
    ("roads" : String) ≠ "standard_building" ∧
    apply_optimism_bias 10000000 "roads" =
      Except.error ("Unknown project type. Choose from: standard_building, non_standard_building, standard_civil_engineering, non_standard_civil_engineering, equipment_development, outsourcing") :=
  ⟨by decide,
    (claim_C5 10000000 "roads" (by decide) (by decide) (by decide) (by decide)
      (by decide) (by decide)).2.2.2.2.2.2⟩

/-- Counterexample to C6: `calculate_bcr` with `costs` of length 1 and
`benefits` of length 2 does not fail — it silently truncates the longer
list and returns a value. -/
theorem claim_C6_counterexample :
    [(1 : ℚ)].length ≠ [(1 : ℚ), 1].length ∧
    calculate_bcr [1] [1, 1] none "standard" = Except.ok 1 := by
  constructor
  · decide
  · rw [calculate_bcr_def_eq]
    norm_num [calculate_discount_factor, List.range_succ]

/-- Claim C6 as amended: `calculate_npv_greenbook` fails fast with the
length-mismatch error whenever `years` is provided with a length different
from `cash_flows`; `calculate_bcr`, however, performs no length validation
at all — on any input it either returns a value or fails with the
zero-denominator error, never with a length-mismatch error. -/
theorem claim_C6_amended (cfs : List ℚ) (ys : List ℤ)
    (costs benefits : List ℚ) (oys : Option (List ℤ)) (rt : String)
    (h : cfs.length ≠ ys.length) :
    calculate_npv_greenbook cfs (some ys) rt =
      Except.error "cash_flows and years must have same length" ∧
    ((∃ v, calculate_bcr costs benefits oys rt = Except.ok v) ∨
      calculate_bcr costs benefits oys rt =
        Except.error "Total discounted costs cannot be zero") := by
  constructor
  · rw [calculate_npv_greenbook, if_pos h]
  · rw [calculate_bcr_def_eq]
    split_ifs
    · exact Or.inr rfl
    · exact Or.inl ⟨_, rfl⟩

/-- Witness for C6 (amended) at `cash_flows = [1]`, `years = [0, 1]`. -/
theorem claim_C6_amended_witness :
    [(1 : ℚ)].length ≠ [(0 : ℤ), 1].length ∧
    (calculate_npv_greenbook [1] (some [0, 1]) "standard" =
      Except.error "cash_flows and years must have same length" ∧
    ((∃ v, calculate_bcr [1] [1] none "standard" = Except.ok v) ∨
      calculate_bcr [1] [1] none "standard" =
        Except.error "Total discounted costs cannot be zero")) :=
  ⟨by decide,
    claim_C6_amended [1] [0, 1] [1] [1] none "standard" (by decide)⟩

/-- Counterexample to C9: with non-negative costs and benefits and a
non-zero discounted cost total, `calculate_bcr` can return exactly `0`
(here: all benefits are zero), which is not strictly greater than `0`. -/
theorem claim_C9_counterexample :
    calculate_bcr [1] [0] none "standard" = Except.ok 0 ∧ ¬ (0 : ℚ) > 0 := by
  constructor
  · rw [calculate_bcr_def_eq]
    norm_num [calculate_discount_factor, List.range_succ]
  · norm_num

/-- Claim C9 as amended: for non-negative costs and benefits and any years
sequence, whenever `calculate_bcr` returns a value (no error), that value
is non-negative (it is `0` exactly when the discounted benefit total is
`0`, so strict positivity does not hold in general). -/
theorem claim_C9_amended (costs benefits : List ℚ) (years : Option (List ℤ))
    (rt : String) (v : ℚ)
    (hc : ∀ x ∈ costs, 0 ≤ x) (hb : ∀ x ∈ benefits, 0 ≤ x)
    (h : calculate_bcr costs benefits years rt = Except.ok v) : 0 ≤ v := by
  rw [calculate_bcr_def_eq] at h
  split at h
  · exact Except.noConfusion h
  · injection h with h
    subst h
    exact div_nonneg (zip_sum_nonneg benefits _ rt hb) (zip_sum_nonneg costs _ rt hc)

/-- Witness for C9 (amended) at `costs = [1]`, `benefits = [2]`. -/
theorem claim_C9_amended_witness :
    (∀ x ∈ [(1 : ℚ)], 0 ≤ x) ∧ (∀ x ∈ [(2 : ℚ)], 0 ≤ x) ∧
    calculate_bcr [1] [2] none "standard" = Except.ok 2 ∧ (0 : ℚ) ≤ 2 := by
  have hb : calculate_bcr [1] [2] none "standard" = Except.ok 2 := by
    rw [calculate_bcr_def_eq]
    norm_num [calculate_discount_factor, List.range_succ]
  exact ⟨by decide, by decide, hb,
    claim_C9_amended [1] [2] none "standard" 2 (by decide) (by decide) hb⟩
example : get_discount_rate 5 "standard" = 0.035 := rfl
example : get_discount_rate 50 "standard" = 0.03 := by
  simp [get_discount_rate, GREEN_BOOK_RATES]
  norm_num
example : apply_optimism_bias 10000000 "standard_civil_engineering" =
    Except.ok 14400000 := by
  simp [apply_optimism_bias, bias_factors, List.lookup]
  norm_num

end CbaTools
